import Mathlib

/-!
Verification development for the pywiscat toolkit (WIS 1.0 / WIS2
weather-metadata catalogue search and reporting).

The Python sources are shallowly embedded: XML documents are modelled as
already-parsed trees (a list of leaf text nodes, a file identifier, and
responsible-party contact blocks), Python exceptions are modelled with
`Except`, and Python dictionaries are modelled as insertion-ordered
association lists.  All string primitives are re-implemented over
`List Char` by structural recursion so that every definition reduces in
the kernel; they model the corresponding Python `str` operations
(`split`, `strip`, `endswith`, `lower`, substring containment), which
act on code points exactly as `List Char` does.
-/

namespace Pywiscat

/-! ## String primitives (models of Python str operations) -/

/-- Model of the Python membership test for a needle that starts at the
head of the haystack. -/
def chPre : List Char → List Char → Bool
  | [], _ => true
  | _ :: _, [] => false
  | a :: as, b :: bs => a == b && chPre as bs

/-- Model of Python `needle in hay` substring containment on code points. -/
def chSub : List Char → List Char → Bool
  | n, [] => chPre n []
  | n, h :: t => chPre n (h :: t) || chSub n t

/-- Model of Python `str.split(sep)` for a one-character separator
(also `str.rsplit(sep)` with no maxsplit, which is identical). -/
def splitCh (sep : Char) : List Char → List (List Char)
  | [] => [[]]
  | c :: rest =>
    let r := splitCh sep rest
    if c == sep then [] :: r
    else
      match r with
      | [] => [[c]]
      | h :: t => (c :: h) :: t

/-- Python `s.split(sep)` on strings, one-character separator. -/
def pySplit (s : String) (sep : Char) : List String :=
  (splitCh sep s.data).map (fun cs => String.mk cs)

/-- Python `c in s` membership of a character in a string. -/
def pyContains (s : String) (c : Char) : Bool :=
  s.data.contains c

/-- Python `s.endswith(post)`. -/
def pyEndsWith (s post : String) : Bool :=
  chPre post.data.reverse s.data.reverse

/-- Python `s.strip()` (remove leading and trailing whitespace). -/
def pyStrip (s : String) : String :=
  String.mk (((s.data.dropWhile Char.isWhitespace).reverse.dropWhile Char.isWhitespace).reverse)

/-- Python `s.lower()` (per-code-point case folding). -/
def pyLower (s : String) : String :=
  String.mk (s.data.map Char.toLower)

/-- Python `s[:n]` (take the first n code points). -/
def pyTake (s : String) (n : Nat) : String :=
  String.mk (s.data.take n)

/-- Python `len(s)` in code points. -/
def pyLen (s : String) : Nat :=
  s.data.length

/-- Python `l[i]` on a list: the element, or an IndexError. -/
def pyIdx (l : List String) (i : Nat) : Except String String :=
  if h : i < l.length then Except.ok (l.get ⟨i, h⟩) else Except.error "IndexError"

/-! ## wis1/util.py -/

namespace Wis1

/-- A metadata file on disk.  The `texts` field is the sequence of XML
leaf text nodes the XPath `//text()` would return for the parsed
document; files are modelled as successfully parsed documents. -/
structure MdFile where
  name : String
  texts : List String
deriving DecidableEq

/-- The flattened full text of a file, from `search_files_by_term`:
each `//text()` value stripped, then joined by single spaces. -/
def anytext (f : MdFile) : String :=
  String.intercalate " " (f.texts.map pyStrip)

/-- `create_file_list` (util.py lines 49-70): walk the directory and
keep exactly the files whose name ends in `.xml`.  The directory walk
is modelled as the list of files it yields, in walk order. -/
def create_file_list (files : List MdFile) : List MdFile :=
  files.filter (fun f => pyEndsWith f.name ".xml")

/-- The per-file match test of `search_files_by_term` (line 101):
`all(term.lower() in anytext.lower() for term in terms)`. -/
def matchesTerms (f : MdFile) (terms : List String) : Bool :=
  terms.all (fun term => chSub (pyLower term).data (pyLower (anytext f)).data)

/-- `search_files_by_term` (util.py lines 73-109): build the `.xml`
file list, skip names not ending in `.xml` (redundant re-check kept
from the source), and keep the files whose flattened text contains all
terms. -/
def search_files_by_term (files : List MdFile) (terms : List String) : List MdFile :=
  (create_file_list files).filter
    (fun f => pyEndsWith f.name ".xml" && matchesTerms f terms)

/-- `citation_authority` (util.py lines 126-139).  `none` models a
Python `None` argument. -/
def citation_authority (file_identifier : Option String) : String :=
  match file_identifier with
  | some fid =>
    let components := pySplit fid ':'
    if components.length > 3 then components.getD 3 "" else ""
  | none => ""

/-- One `gmd:CI_ResponsibleParty` block: whether its role code is
`pointOfContact`, and the text nodes of its organisation name. -/
structure Contact where
  isPoc : Bool
  orgNames : List String
deriving DecidableEq

/-- A parsed metadata document as `group_by_originator` reads it:
the `gmd:fileIdentifier` text (none when the XPath yields no node,
in which case `identifier()` raises IndexError) and the
responsible-party blocks in document order. -/
structure MdDoc where
  fileIdentifier : Option String
  contacts : List Contact
deriving DecidableEq

/-- The contact loop of `group_by_originator` (lines 171-189) tallies
the first contact whose role is `pointOfContact` and whose organisation
name list is non-empty; contacts failing either check are passed over. -/
def findPoc (contacts : List Contact) : Option Contact :=
  contacts.find? (fun c => c.isPoc && !c.orgNames.isEmpty)

/-- A value of the Python results dictionary: a per-organisation count,
or (under authority grouping) a nested organisation-to-count dictionary. -/
inductive GEntry where
  | cnt (n : Nat)
  | sub (m : List (String × Nat))
deriving DecidableEq

/-- The `results_by_org` dictionary, as an insertion-ordered
association list. -/
abbrev GState := List (String × GEntry)

/-- Python dictionary lookup on the results dictionary. -/
def lookupEntry : GState → String → Option GEntry
  | [], _ => none
  | (k2, v) :: rest, k => if k2 == k then some v else lookupEntry rest k

/-- Lines 183-188: `results[org] += 1` when present else `results[org] = 1`.
When the existing value is a nested dictionary the `+= 1` raises
TypeError, which the enclosing handler catches, so the state is
returned unchanged. -/
def bumpTop : GState → String → GState
  | [], k => [(k, GEntry.cnt 1)]
  | (k2, v) :: rest, k =>
    if k2 == k then
      match v with
      | GEntry.cnt n => (k2, GEntry.cnt (n + 1)) :: rest
      | GEntry.sub m => (k2, GEntry.sub m) :: rest
    else (k2, v) :: bumpTop rest k

/-- Inner-dictionary counterpart of `bumpTop` (Python dict of counts). -/
def bumpNat : List (String × Nat) → String → List (String × Nat)
  | [], k => [(k, 1)]
  | (k2, n) :: rest, k =>
    if k2 == k then (k2, n + 1) :: rest else (k2, n) :: bumpNat rest k

/-- Lines 182-188 in the authority-grouping case: index the nested
dictionary for `authority` and bump the organisation count inside it.
If the entry for `authority` is an integer, indexing it raises
TypeError, which the handler catches (state unchanged); a missing
entry cannot occur because line 181 just inserted it. -/
def bumpIn (s : GState) (auth org : String) : GState :=
  match lookupEntry s auth with
  | some (GEntry.sub m) =>
    s.map (fun p => if p.1 == auth then (p.1, GEntry.sub (bumpNat m org)) else p)
  | some (GEntry.cnt _) => s
  | none => s

/-- Line 180-181: `if authority not in results_by_org: results_by_org[authority] = dict()`. -/
def ensureSub (s : GState) (auth : String) : GState :=
  if (lookupEntry s auth).isSome then s else s ++ [(auth, GEntry.sub [])]

/-- The body of the per-file `try` block of `group_by_originator`
(lines 167-191).  Any exception inside it (the IndexError from
`identifier()` when the document has no file identifier, or the
TypeError cases modelled in `bumpTop`/`bumpIn`) is caught by the
`except` at line 193, leaving the dictionary as mutated so far. -/
def tryBody (group_by_authority : Bool) (s : GState) (d : MdDoc) : GState :=
  match findPoc d.contacts with
  | none => s
  | some c =>
    let org := c.orgNames.headD ""
    if group_by_authority then
      match d.fileIdentifier with
      | none => s
      | some fid =>
        let auth := citation_authority (some fid)
        bumpIn (ensureSub s auth) auth org
    else bumpTop s org

/-- The file loop of `group_by_originator` (lines 157-194):
`etree.parse` at line 162 sits OUTSIDE the `try` block, so a parse
failure propagates out of the function; every other per-document error
is caught at line 193 and the loop continues. -/
def groupGo (group_by_authority : Bool) (s : GState) :
    List (Except String MdDoc) → Except String GState
  | [] => Except.ok s
  | Except.error e :: _ => Except.error e
  | Except.ok d :: rest => groupGo group_by_authority (tryBody group_by_authority s d) rest

/-- `group_by_originator` (util.py lines 142-196).  Each input list
element is the outcome of `etree.parse` on one file: a parsed document
or a parse error. -/
def group_by_originator (file_list : List (Except String MdDoc))
    (group_by_authority : Bool) : Except String GState :=
  groupGo group_by_authority [] file_list

/-- Sum of the integer counting values of the results dictionary. -/
def sumEntries : GState → Nat
  | [] => 0
  | (_, GEntry.cnt n) :: t => n + sumEntries t
  | (_, GEntry.sub _) :: t => sumEntries t

/-- Number of documents having at least one point-of-contact block with
a non-empty organisation name. -/
def countPoc (docs : List MdDoc) : Nat :=
  (docs.filter (fun d => (findPoc d.contacts).isSome)).length

/-- All dictionary values are positive counts (no nested dictionaries,
no zero counts). -/
def onlyCnt (s : GState) : Prop :=
  ∀ p ∈ s, ∃ n, p.2 = GEntry.cnt (n + 1)

/-- Sample document with a point-of-contact organisation name. -/
def docWithPoc : MdDoc :=
  { fileIdentifier := some "urn:wmo:md:de-dwd:x",
    contacts := [{ isPoc := true, orgNames := ["ECMWF"] }] }

/-- Sample document whose only contact is not a point of contact. -/
def docNoPoc : MdDoc :=
  { fileIdentifier := some "urn:wmo:md:de-dwd:y",
    contacts := [{ isPoc := false, orgNames := ["DWD"] }] }

/-- Sample document with a point-of-contact organisation name but no
file identifier. -/
def docWithPocNoId : MdDoc :=
  { fileIdentifier := none,
    contacts := [{ isPoc := true, orgNames := ["ECMWF", "other"] }] }

end Wis1

/-! ## wis2/catalogue.py -/

namespace Wis2

/-- Head of `s.rsplit(sep)[0]` for a one-character separator: the part
of the string before its first separator occurrence (the whole string
when the separator is absent). -/
def rsplitFirst (s : String) (sep : Char) : String :=
  (pySplit s sep).headD ""

/-- `get_country_and_centre` (catalogue.py lines 47-70), translated
statement by statement.  The two fallback branches assign and fall
through (the source has no `return` in them), so control always reaches
the final unconditional `tokens[3]` access; each indexing step that can
raise IndexError is modelled with `pyIdx`. -/
def get_country_and_centre (identifier : String) : Except String (String × String) :=
  let tokens0 := pySplit identifier ':'
  let step1 : Except String (List String) :=
    if pyContains identifier ':' = false then
      match pyIdx (pySplit identifier '.') 1 with
      | Except.ok _ => Except.ok (pySplit identifier '.')
      | Except.error e => Except.error e
    else Except.ok tokens0
  match step1 with
  | Except.error e => Except.error e
  | Except.ok tokens =>
    let step2 : Except String Unit :=
      if tokens.length < 5 then
        match pyIdx tokens 1 with
        | Except.ok _ => Except.ok ()
        | Except.error e => Except.error e
      else Except.ok ()
    match step2 with
    | Except.error e => Except.error e
    | Except.ok _ =>
      match pyIdx tokens 3 with
      | Except.error e => Except.error e
      | Except.ok t3 => Except.ok (rsplitFirst t3 '-', t3)

/-- The begin/end handling of `search` (catalogue.py lines 126-135).
`begin2` and `end2` start out unassigned (modelled by `none`); line 129
assigns `begin2 = ".."` only when `begin is None`, and line 131
assigns `end2 = ".."` when `end is not None`.  Reading an unassigned
local in the f-string at line 132 raises NameError.  Returns the value
the `datetime` query parameter would get, `none` when no parameter is
sent. -/
def detect_datetime (begin_ end_ : Option String) : Except String (Option String) :=
  if begin_.isSome || end_.isSome then
    let begin2 : Option String := if begin_.isNone then some ".." else none
    let end2 : Option String := if end_.isSome then some ".." else none
    match begin2, end2 with
    | some b2, some e2 => Except.ok (some (b2 ++ "/" ++ e2))
    | _, _ => Except.error "NameError"
  else Except.ok none

/-- The JSON value of `properties` dot `wmo:dataPolicy` from one
feature: absent, a plain string, or an object whose `name` member may
itself be absent. -/
inductive DataPolicyField where
  | str (s : String)
  | obj (name : Option String)
deriving DecidableEq

/-- One element of the response `features` array, with the members the
record-building loop of `search` reads. -/
structure Feature where
  id : String
  title : String
  dataPolicy : Option DataPolicyField
deriving DecidableEq

/-- Lines 189-192 of `search`: truncate titles longer than 50 code
points and append an ellipsis. -/
def title_short (title : String) : String :=
  if pyLen title > 50 then pyTake title 50 ++ "..." else title

/-- Lines 194-202 of `search`: unwrap the data-policy field, taking the
`name` member when it is an object; any KeyError (absent field, or
object without `name`) is caught and yields the literal `"missing"`. -/
def extract_data_policy (dp : Option DataPolicyField) : String :=
  match dp with
  | none => "missing"
  | some (DataPolicyField.str s) => s
  | some (DataPolicyField.obj none) => "missing"
  | some (DataPolicyField.obj (some n)) => n

/-- The per-feature body of the loop at lines 179-212 of `search`:
derive the centre id from the feature id (which can raise), then build
the display record `(id, centre, short title, data policy)`. -/
def process_feature (f : Feature) : Except String (String × String × String × String) :=
  match get_country_and_centre f.id with
  | Except.error e => Except.error e
  | Except.ok (_, centre_id) =>
    Except.ok (f.id, centre_id, title_short f.title, extract_data_policy f.dataPolicy)

/-- The result dictionary built by `search` (lines 172-214).  `fields`
is `none` while the `fields` key is absent. -/
structure Output where
  matched : Nat
  returned : Nat
  fields : Option (List String)
  records : List (String × String × String × String)
deriving DecidableEq

/-- The constant list assigned to `output` at key `fields` on every
loop iteration (lines 182-187). -/
def outFields : List String :=
  ["id", "centre", "title", "data policy"]

/-- The feature loop of `search` (lines 179-212): each iteration
re-assigns the `fields` key and appends one record. -/
def build_records (o : Output) : List Feature → Except String Output
  | [] => Except.ok o
  | f :: rest =>
    match process_feature f with
    | Except.error e => Except.error e
    | Except.ok r =>
      build_records { o with fields := some outFields, records := o.records ++ [r] } rest

/-- Sample feature with a 51-code-point title and no data-policy
member, used to witness the record-building properties. -/
def sampleFeature : Feature :=
  { id := "urn:wmo:md:zm-zmd:x",
    title := "012345678901234567890123456789012345678901234567890",
    dataPolicy := none }

/-- The display record `search` builds from `sampleFeature`. -/
def sampleRecord : String × String × String × String :=
  ("urn:wmo:md:zm-zmd:x", "zm-zmd",
   "01234567890123456789012345678901234567890123456789...", "missing")

/-- The listing response of the GDC items endpoint, with the members
`search` reads. -/
structure HttpResponse where
  ok : Bool
  numberMatched : Nat
  numberReturned : Nat
  features : List Feature
deriving DecidableEq

/-- The response-processing tail of `search` (catalogue.py lines
162-214): on a non-success HTTP status the bare `return` at line 168
yields Python `None` (modelled `Except.ok none`); otherwise the output
dictionary is initialised with `matched`, `returned` and an empty
`records` list and filled by the feature loop. -/
def search_process (resp : HttpResponse) : Except String (Option Output) :=
  if resp.ok = false then Except.ok none
  else
    match build_records
        { matched := resp.numberMatched, returned := resp.numberReturned,
          fields := none, records := [] } resp.features with
    | Except.error e => Except.error e
    | Except.ok o => Except.ok (some o)

end Wis2

end Pywiscat

/-! ## Theorems -/

open Pywiscat Pywiscat.Wis1 Pywiscat.Wis2

/-- Auxiliary: `List.getD` agrees with `List.get` inside the bound. -/
theorem listGetD_eq_get (l : List String) (i : Nat) (h : i < l.length) (d : String) :
    l.getD i d = l.get ⟨i, h⟩ := by
  induction l generalizing i with
  | nil => simp at h
  | cons a t ih =>
    cases i with
    | zero => rfl
    | succ n => exact ih n (by simpa using h)

/-- C4: `citation_authority` returns the empty string for an absent
identifier or one with at most 3 colon-delimited segments, and the
segment at index 3 otherwise; in particular it maps
`urn:wmo:md:ca-eccc-msc:core.data` to `ca-eccc-msc`. -/
theorem c4_citation_authority_contract :
    citation_authority none = "" ∧
    (∀ s : String, (pySplit s ':').length ≤ 3 → citation_authority (some s) = "") ∧
    (∀ s : String, 3 < (pySplit s ':').length →
      citation_authority (some s) = (pySplit s ':').getD 3 "") ∧
    citation_authority (some "urn:wmo:md:ca-eccc-msc:core.data") = "ca-eccc-msc" := by
  refine ⟨rfl, ?_, ?_, by decide⟩
  · intro s h
    simp only [citation_authority]
    rw [if_neg (by omega)]
  · intro s h
    simp only [citation_authority]
    rw [if_pos (by omega)]

/-- Witness for C4 at concrete identifiers with 2 and with 5 segments. -/
theorem c4_witness :
    ((pySplit "urn:wmo" ':').length ≤ 3 ∧ citation_authority (some "urn:wmo") = "") ∧
    (3 < (pySplit "urn:wmo:md:ca-eccc-msc:core.data" ':').length ∧
      citation_authority (some "urn:wmo:md:ca-eccc-msc:core.data") =
        (pySplit "urn:wmo:md:ca-eccc-msc:core.data" ':').getD 3 "") :=
  ⟨⟨by decide, c4_citation_authority_contract.2.1 "urn:wmo" (by decide)⟩,
   by decide, c4_citation_authority_contract.2.2.1 "urn:wmo:md:ca-eccc-msc:core.data" (by decide)⟩

/-- C5: evaluation of `get_country_and_centre` at identifiers the claim
says are handled by the fallback heuristics.  A colon-delimited
identifier with fewer than 4 segments, and likewise a dot-delimited
one, raise IndexError at the unconditional `tokens[3]` access that
follows the fallback branches (which lack a return), and for a
4-segment identifier the fallback assignment is dead: the result is
recomputed from `tokens[3]`. -/
theorem c5_get_country_and_centre_raises :
    get_country_and_centre "urn:wmo:md" = Except.error "IndexError" ∧
    get_country_and_centre "foo.bar" = Except.error "IndexError" ∧
    get_country_and_centre "a:b:c:d" = Except.ok ("d", "d") :=
  ⟨rfl, rfl, rfl⟩

/-- C6: evaluation of the begin/end handling of the remote query
builder.  Whenever `begin` is set the local `begin2` is never assigned
and the f-string raises NameError; when only `end` is set the branch
`if end is not None: end2 = ".."` replaces the SET side by the
wildcard, producing `../..` instead of `../<end>`; only the
both-unset case behaves as specified (no datetime parameter). -/
theorem c6_detect_datetime_defect :
    detect_datetime (some "2024-01-01T00:00:00Z") none = Except.error "NameError" ∧
    detect_datetime (some "2024-01-01T00:00:00Z") (some "2024-12-31T23:59:59Z") =
      Except.error "NameError" ∧
    detect_datetime none (some "2024-12-31T23:59:59Z") = Except.ok (some "../..") ∧
    detect_datetime none none = Except.ok none :=
  ⟨rfl, rfl, rfl, rfl⟩

/-- C8: whenever the remote listing call returns a non-success HTTP
status, `search` returns Python `None` (no result) instead of raising. -/
theorem c8_search_returns_none_on_http_error (resp : HttpResponse) (h : resp.ok = false) :
    search_process resp = Except.ok none := by
  unfold search_process
  rw [if_pos h]

/-- Witness for C8 at a concrete failed response. -/
theorem c8_witness :
    ({ ok := false, numberMatched := 0, numberReturned := 0, features := [] } : HttpResponse).ok
        = false ∧
    search_process { ok := false, numberMatched := 0, numberReturned := 0, features := [] } =
      Except.ok none :=
  ⟨rfl, c8_search_returns_none_on_http_error
    { ok := false, numberMatched := 0, numberReturned := 0, features := [] } rfl⟩

/-- C7: every record built from a feature carries the original title
when it has at most 50 code points and the 50-point truncation with an
ellipsis suffix otherwise, and carries the literal `"missing"` as data
policy when the feature has no `wmo:dataPolicy` member. -/
theorem c7_record_title_and_policy (f : Feature) (r : String × String × String × String)
    (h : process_feature f = Except.ok r) :
    (pyLen f.title ≤ 50 → r.2.2.1 = f.title) ∧
    (50 < pyLen f.title → r.2.2.1 = pyTake f.title 50 ++ "...") ∧
    (f.dataPolicy = none → r.2.2.2 = "missing") := by
  unfold process_feature at h
  cases hg : get_country_and_centre f.id with
  | error e => rw [hg] at h; exact absurd h (by simp)
  | ok p =>
    obtain ⟨c, cid⟩ := p
    rw [hg] at h
    simp only [Except.ok.injEq] at h
    subst h
    refine ⟨?_, ?_, ?_⟩
    · intro hle
      show title_short f.title = f.title
      simp only [title_short]
      rw [if_neg (by omega)]
    · intro hgt
      show title_short f.title = pyTake f.title 50 ++ "..."
      simp only [title_short]
      rw [if_pos (by omega)]
    · intro hdp
      show extract_data_policy f.dataPolicy = "missing"
      rw [hdp]
      rfl

/-- Witness for C7 at a 51-point title and an absent data policy. -/
theorem c7_witness :
    process_feature sampleFeature = Except.ok sampleRecord ∧
    50 < pyLen sampleFeature.title ∧
    sampleRecord.2.2.1 = pyTake sampleFeature.title 50 ++ "..." ∧
    sampleRecord.2.2.2 = "missing" :=
  ⟨rfl, by decide,
   (c7_record_title_and_policy sampleFeature sampleRecord rfl).2.1 (by decide),
   (c7_record_title_and_policy sampleFeature sampleRecord rfl).2.2 rfl⟩

/-- C9: a colon-delimited identifier with at least 5 segments is parsed
into (country, centre id) where the centre id is segment index 3 and
the country is the part of that segment before its first hyphen. -/
theorem c9_colon_identifier_with_5_segments (idf : String)
    (h1 : pyContains idf ':' = true) (h2 : 5 ≤ (pySplit idf ':').length) :
    get_country_and_centre idf =
      Except.ok (rsplitFirst ((pySplit idf ':').getD 3 "") '-', (pySplit idf ':').getD 3 "") := by
  unfold get_country_and_centre
  dsimp only
  rw [h1]
  rw [if_neg (show ¬(true = false) by simp)]
  dsimp only
  rw [if_neg (show ¬((pySplit idf ':').length < 5) by omega)]
  dsimp only
  unfold pyIdx
  rw [dif_pos (show 3 < (pySplit idf ':').length by omega)]
  rw [listGetD_eq_get (pySplit idf ':') 3 (by omega)]

/-- Witness for C9: the documented example identifier resolves to
country `zm` and centre id `zm-zmd`. -/
theorem c9_witness :
    pyContains "urn:wmo:md:zm-zmd:core.surface-based-observations.synop" ':' = true ∧
    5 ≤ (pySplit "urn:wmo:md:zm-zmd:core.surface-based-observations.synop" ':').length ∧
    get_country_and_centre "urn:wmo:md:zm-zmd:core.surface-based-observations.synop" =
      Except.ok ("zm", "zm-zmd") :=
  ⟨by decide, by decide,
   (c9_colon_identifier_with_5_segments "urn:wmo:md:zm-zmd:core.surface-based-observations.synop"
      (by decide) (by decide)).trans (by rfl)⟩

/-- Auxiliary for C10: the feature loop leaves the `fields` key absent
exactly when it never iterates. -/
theorem build_records_fields :
    ∀ (fs : List Feature) (o out : Output), build_records o fs = Except.ok out →
      out.fields = if fs.isEmpty then o.fields else some outFields := by
  intro fs
  induction fs with
  | nil =>
    intro o out h
    simp only [build_records, Except.ok.injEq] at h
    subst h
    rfl
  | cons f rest ih =>
    intro o out h
    unfold build_records at h
    cases hp : process_feature f with
    | error e => rw [hp] at h; exact absurd h (by simp)
    | ok r =>
      rw [hp] at h
      have hf := ih _ _ h
      simp only [List.isEmpty_cons, if_false, Bool.false_eq_true]
      rw [hf]
      cases rest <;> rfl

/-- C10: on a success response the result of `search` has a `fields`
key exactly when the feature list is non-empty; with zero features the
result is just `matched`, `returned` and an empty `records` list. -/
theorem c10_fields_key_iff_features (resp : HttpResponse) (out : Output)
    (h : search_process resp = Except.ok (some out)) :
    (out.fields.isSome = true ↔ resp.features ≠ []) ∧
    (resp.features = [] →
      out = { matched := resp.numberMatched, returned := resp.numberReturned,
              fields := none, records := [] }) := by
  unfold search_process at h
  by_cases hok : resp.ok = false
  · rw [if_pos hok] at h
    exact absurd h (by simp)
  · rw [if_neg hok] at h
    cases hb : build_records
        { matched := resp.numberMatched, returned := resp.numberReturned,
          fields := none, records := [] } resp.features with
    | error e => rw [hb] at h; exact absurd h (by simp)
    | ok o =>
      rw [hb] at h
      simp only [Except.ok.injEq, Option.some.injEq] at h
      subst h
      have hf := build_records_fields _ _ _ hb
      constructor
      · cases hfs : resp.features with
        | nil =>
          rw [hfs] at hf
          simp only [List.isEmpty_nil, if_true] at hf
          simp [hf]
        | cons a l =>
          rw [hfs] at hf
          simp only [List.isEmpty_cons, if_false, Bool.false_eq_true] at hf
          simp [hf]
      · intro hnil
        rw [hnil] at hb
        simp only [build_records, Except.ok.injEq] at hb
        exact hb.symm

/-- Witness for C10 at a success response with zero features. -/
theorem c10_witness :
    search_process { ok := true, numberMatched := 7, numberReturned := 0, features := [] } =
      Except.ok (some { matched := 7, returned := 0, fields := none, records := [] }) ∧
    (({ matched := 7, returned := 0, fields := none, records := [] } : Output).fields.isSome = true ↔
      ({ ok := true, numberMatched := 7, numberReturned := 0, features := [] } :
        HttpResponse).features ≠ []) :=
  ⟨rfl, (c10_fields_key_iff_features
    { ok := true, numberMatched := 7, numberReturned := 0, features := [] }
    { matched := 7, returned := 0, fields := none, records := [] } rfl).1⟩

/-- Auxiliary for C1: with an empty term list the conjunction over
terms is vacuously true, so the search returns exactly the `.xml`
file list. -/
theorem search_files_empty_terms (files : List MdFile) :
    search_files_by_term files [] = create_file_list files := by
  unfold search_files_by_term create_file_list
  rw [List.filter_filter]
  apply List.filter_congr
  intro f _
  cases hf : pyEndsWith f.name ".xml" <;> simp [matchesTerms, hf]

/-- C1: `search_files_by_term` returns exactly the files whose name
ends in `.xml` and whose flattened text contains every search term as
a case-insensitive substring; for the empty term list it returns every
`.xml` file. -/
theorem c1_search_files_by_term_exact (files : List MdFile) (terms : List String) (f : MdFile) :
    (f ∈ search_files_by_term files terms ↔
      f ∈ files ∧ pyEndsWith f.name ".xml" = true ∧
        ∀ t ∈ terms, chSub (pyLower t).data (pyLower (anytext f)).data = true) ∧
    search_files_by_term files [] = create_file_list files := by
  refine ⟨?_, search_files_empty_terms files⟩
  unfold search_files_by_term create_file_list
  simp only [List.mem_filter, Bool.and_eq_true, matchesTerms, List.all_eq_true]
  tauto

/-- Witness for C1: membership and exclusion on a concrete directory of
three files (one `.xml` match, one non-`.xml`, one non-matching). -/
theorem c1_witness :
    ({ name := "a.xml", texts := [" GRIB data "] } : MdFile) ∈
      search_files_by_term
        [{ name := "a.xml", texts := [" GRIB data "] },
         { name := "b.txt", texts := [" GRIB data "] },
         { name := "c.xml", texts := ["other"] }] ["grib"] :=
  (c1_search_files_by_term_exact
    [{ name := "a.xml", texts := [" GRIB data "] },
     { name := "b.txt", texts := [" GRIB data "] },
     { name := "c.xml", texts := ["other"] }] ["grib"]
    { name := "a.xml", texts := [" GRIB data "] }).1.mpr
    ⟨by decide, by decide, by decide⟩

/-- Auxiliary for C2: a document with no file identifier makes
`identifier()` raise IndexError inside the `try` block, which is
caught, leaving the tally unchanged. -/
theorem tryBody_no_identifier (s : GState) (d : MdDoc) (h : d.fileIdentifier = none) :
    tryBody true s d = s := by
  unfold tryBody
  cases hf : findPoc d.contacts with
  | none => rfl
  | some c => simp [h]

/-- Auxiliary for C2: the skip happens in any position of the file
list. -/
theorem groupGo_skip_no_identifier (d : MdDoc) (hd : d.fileIdentifier = none) :
    ∀ (pre suf : List (Except String MdDoc)) (s : GState),
      groupGo true s (pre ++ Except.ok d :: suf) = groupGo true s (pre ++ suf) := by
  intro pre
  induction pre with
  | nil =>
    intro suf s
    show groupGo true (tryBody true s d) suf = groupGo true s suf
    rw [tryBody_no_identifier s d hd]
  | cons x t ih =>
    intro suf s
    cases x with
    | error e => rfl
    | ok d2 => exact ih suf (tryBody true s d2)

/-- Auxiliary for C2: a parse failure anywhere past the successfully
parsed documents aborts the whole batch with that error. -/
theorem groupGo_parse_error (e : String) :
    ∀ (docs : List MdDoc) (suf : List (Except String MdDoc)) (gba : Bool) (s : GState),
      groupGo gba s (docs.map Except.ok ++ Except.error e :: suf) = Except.error e := by
  intro docs
  induction docs with
  | nil => intro suf gba s; rfl
  | cons d t ih => intro suf gba s; exact ih suf gba (tryBody gba s d)

/-- C2 counterexample: a batch consisting of one file that fails to
parse makes `group_by_originator` fail with that parse error, whereas
the batch without the failing file yields the empty tally; the parse
failure is therefore propagated, not logged-and-skipped. -/
theorem c2_counterexample :
    group_by_originator [Except.error "XMLSyntaxError"] false = Except.error "XMLSyntaxError" ∧
    group_by_originator [] false = Except.ok [] :=
  ⟨rfl, rfl⟩

/-- C2 amended: an error raised while extracting or processing an
already-parsed document (here: the IndexError from a missing file
identifier under authority grouping) is logged and skipped, the batch
tally being that of the remaining documents; a document-parse failure,
however, propagates and fails the whole batch. -/
theorem c2_amended_partial_failure :
    (∀ (pre suf : List (Except String MdDoc)) (d : MdDoc), d.fileIdentifier = none →
      group_by_originator (pre ++ Except.ok d :: suf) true =
        group_by_originator (pre ++ suf) true) ∧
    (∀ (docs : List MdDoc) (suf : List (Except String MdDoc)) (gba : Bool) (e : String),
      group_by_originator (docs.map Except.ok ++ Except.error e :: suf) gba = Except.error e) := by
  constructor
  · intro pre suf d hd
    exact groupGo_skip_no_identifier d hd pre suf []
  · intro docs suf gba e
    exact groupGo_parse_error e docs suf gba []

/-- Witness for C2 amended at concrete batches. -/
theorem c2_witness :
    group_by_originator [Except.ok docWithPocNoId] true = group_by_originator [] true ∧
    group_by_originator [Except.error "fatal parse"] false = Except.error "fatal parse" :=
  ⟨c2_amended_partial_failure.1 [] [] docWithPocNoId rfl,
   c2_amended_partial_failure.2 [] [] false "fatal parse"⟩

/-- Auxiliary for C3: tallying one organisation adds one to the summed
counts and keeps every dictionary value a positive count. -/
theorem bumpTop_sum (k : String) :
    ∀ s : GState, onlyCnt s →
      sumEntries (bumpTop s k) = sumEntries s + 1 ∧ onlyCnt (bumpTop s k) := by
  intro s
  induction s with
  | nil =>
    intro _
    refine ⟨rfl, ?_⟩
    intro p hp
    simp only [bumpTop, List.mem_singleton] at hp
    subst hp
    exact ⟨0, rfl⟩
  | cons hd t ih =>
    intro hoc
    obtain ⟨k2, v⟩ := hd
    obtain ⟨n, hn⟩ := hoc (k2, v) (List.mem_cons_self _ _)
    dsimp only at hn
    subst hn
    have htail : onlyCnt t := fun p hp => hoc p (List.mem_cons_of_mem _ hp)
    unfold bumpTop
    by_cases hk : (k2 == k) = true
    · rw [if_pos hk]
      refine ⟨by simp [sumEntries]; omega, ?_⟩
      intro p hp
      rcases List.mem_cons.mp hp with h1 | h2
      · subst h1
        exact ⟨n + 1, rfl⟩
      · exact htail p h2
    · rw [if_neg hk]
      obtain ⟨ih1, ih2⟩ := ih htail
      refine ⟨by simp [sumEntries, ih1]; omega, ?_⟩
      intro p hp
      rcases List.mem_cons.mp hp with h1 | h2
      · subst h1
        exact ⟨n, rfl⟩
      · exact ih2 p h2

/-- Auxiliary for C3: folding the per-document tally over parsed
documents adds exactly one count per document having a point-of-contact
organisation name. -/
theorem foldl_tryBody_sum (docs : List MdDoc) :
    ∀ s : GState, onlyCnt s →
      sumEntries (docs.foldl (tryBody false) s) = sumEntries s + countPoc docs ∧
      onlyCnt (docs.foldl (tryBody false) s) := by
  induction docs with
  | nil => intro s h; exact ⟨by simp [countPoc], h⟩
  | cons d t ih =>
    intro s h
    cases hf : findPoc d.contacts with
    | none =>
      have hstep : tryBody false s d = s := by simp [tryBody, hf]
      have hcount : countPoc (d :: t) = countPoc t := by
        simp [countPoc, List.filter_cons, hf]
      simp only [List.foldl_cons, hstep, hcount]
      exact ih s h
    | some c =>
      have hstep : tryBody false s d = bumpTop s (c.orgNames.headD "") := by
        simp [tryBody, hf]
      have hcount : countPoc (d :: t) = countPoc t + 1 := by
        simp [countPoc, List.filter_cons, hf]
      obtain ⟨b1, b2⟩ := bumpTop_sum (c.orgNames.headD "") s h
      obtain ⟨ih1, ih2⟩ := ih (bumpTop s (c.orgNames.headD "")) b2
      constructor
      · simp only [List.foldl_cons, hstep, hcount]
        rw [ih1, b1]
        omega
      · simp only [List.foldl_cons, hstep]
        exact ih2

/-- Auxiliary for C3: on a batch in which every file parses, the file
loop is the fold of the per-document tally step. -/
theorem groupGo_all_ok (docs : List MdDoc) :
    ∀ (gba : Bool) (s : GState),
      groupGo gba s (docs.map Except.ok) = Except.ok (docs.foldl (tryBody gba) s) := by
  induction docs with
  | nil => intro gba s; rfl
  | cons d t ih => intro gba s; exact ih gba (tryBody gba s d)

/-- C3: when every file parses and authority grouping is off, the
summed values of the returned mapping equal the number of files having
at least one point-of-contact block with a non-empty organisation name
(each such file contributes exactly one), and every key present carries
a positive count (no zero-counted entries). -/
theorem c3_group_sum_equals_poc_count (docs : List MdDoc) (s : GState)
    (h : group_by_originator (docs.map Except.ok) false = Except.ok s) :
    sumEntries s = countPoc docs ∧ ∀ p ∈ s, ∃ n, p.2 = GEntry.cnt (n + 1) := by
  unfold group_by_originator at h
  rw [groupGo_all_ok] at h
  simp only [Except.ok.injEq] at h
  subst h
  obtain ⟨h1, h2⟩ := foldl_tryBody_sum docs [] (by intro p hp; simp at hp)
  exact ⟨by simpa [sumEntries] using h1, h2⟩

/-- Witness for C3 at a three-file batch: two files with the same
point-of-contact organisation, one without any. -/
theorem c3_witness :
    group_by_originator ([docWithPoc, docNoPoc, docWithPocNoId].map Except.ok) false =
      Except.ok [("ECMWF", GEntry.cnt 2)] ∧
    sumEntries [("ECMWF", GEntry.cnt 2)] = countPoc [docWithPoc, docNoPoc, docWithPocNoId] :=
  ⟨rfl, (c3_group_sum_equals_poc_count [docWithPoc, docNoPoc, docWithPocNoId]
    [("ECMWF", GEntry.cnt 2)] rfl).1⟩
